import Mathlib

/-!
Shallow embedding of `src/app/main.py` (Event Management API).

The document database is modelled as one lookup function per collection
(`String → Option Doc`); GridFS as a lookup function for blobs.  Mongo
ObjectIds are modelled as 24-character hex strings; freshly generated ids
come from a counter through `idOfNat`.  Every adapter call is recorded in
an access log inside the state, so "no storage access" is expressible.
HTTP error responses (`HTTPException`) become the `ApiError` type;
uncaught exceptions (e.g. `fs.get` on a missing blob) become
`ApiError.internal`.
-/

/-- Models a hex digit as accepted by `bytes.fromhex` inside
`bson.ObjectId.is_valid` (digits, `a`-`f`, `A`-`F`). -/
def isHexChar (c : Char) : Bool :=
  c.isDigit || (97 ≤ c.toNat && c.toNat ≤ 102) || (65 ≤ c.toNat && c.toNat ≤ 70)

/-- Models `bson.ObjectId.is_valid` on strings: 24 hex characters. -/
def isValidObjectId (s : String) : Bool :=
  s.length == 24 && s.data.all isHexChar

/-- One hex digit character (lower case), `d % 16` keeps it total. -/
def hexChar (d : Nat) : Char :=
  if d % 16 < 10 then Char.ofNat (48 + d % 16) else Char.ofNat (87 + d % 16)

/-- The id the store hands out for the `n`-th generated ObjectId:
a 24-character hex rendering of `n`. -/
def idOfNat (n : Nat) : String :=
  String.mk ((List.range 24).map (fun i => hexChar (n / 16 ^ i % 16)))

theorem isHexChar_hexChar (d : Nat) : isHexChar (hexChar d) = true := by
  unfold hexChar
  generalize h : d % 16 = k
  have hk : k < 16 := h ▸ Nat.mod_lt d (by omega)
  interval_cases k <;> decide

theorem idOfNat_valid (n : Nat) : isValidObjectId (idOfNat n) = true := by
  unfold isValidObjectId idOfNat
  refine Bool.and_eq_true _ _ |>.mpr ⟨?_, ?_⟩
  · simp [String.length]
  · simp [List.all_eq_true]
    intro c _
    exact isHexChar_hexChar _

/-- Errors surfaced to the HTTP layer: `HTTPException(400, …)` for a
malformed id, `HTTPException(404, …)` for a missing document, and
`internal` for any uncaught exception (a 500-class failure). -/
inductive ApiError where
  | invalidId (detail : String)
  | notFound (detail : String)
  | internal
deriving Repr, DecidableEq

def ApiError.status : ApiError → Nat
  | .invalidId _ => 400
  | .notFound _ => 404
  | .internal => 500

/-- One call into the document-store or object-store adapters. -/
inductive StoreAccess where
  | docRead (coll : String) (id : String)
  | docInsert (coll : String) (id : String)
  | docUpdate (coll : String) (id : String)
  | docDelete (coll : String) (id : String)
  | blobPut (id : String)
  | blobGet (id : String)
deriving Repr, DecidableEq

/-- A GridFS blob: `fs.put(content, filename=…, contentType=…, meta=…)`. -/
structure Blob where
  content : List Nat
  filename : Option String
  contentType : Option String
  meta : List (String × String)
deriving Repr, DecidableEq

/-- Stored venue document.  `photo_file_id` is the optional attachment
key set by the media endpoint (absent on freshly inserted documents). -/
structure VenueDoc where
  name : String
  address : String
  capacity : Int
  photo_file_id : Option String
deriving Repr, DecidableEq

/-- Stored event document with the two optional attachment keys. -/
structure EventDoc where
  name : String
  description : Option String
  venue_id : String
  date : String
  max_attendees : Int
  poster_file_id : Option String
  promo_video_file_id : Option String
deriving Repr, DecidableEq

structure AttendeeDoc where
  name : String
  email : String
  phone : Option String
deriving Repr, DecidableEq

structure BookingDoc where
  event_id : String
  attendee_id : String
  tickets : Int
  booking_date : String
deriving Repr, DecidableEq

/-- Pointwise update of a collection function. -/
def setFn {α : Type} (f : String → Option α) (k : String) (v : Option α) :
    String → Option α :=
  fun i => if i = k then v else f i

/-- The whole storage state: the five Mongo collections (venues, events,
attendees, bookings and the GridFS blob store), the id generators, and
the adapter-access log. -/
structure AppState where
  venues : String → Option VenueDoc
  events : String → Option EventDoc
  attendees : String → Option AttendeeDoc
  bookings : String → Option BookingDoc
  blobs : String → Option Blob
  nextOid : Nat
  nextFid : Nat
  log : List StoreAccess

/-- `VenueIn` (pydantic input model). -/
structure VenueIn where
  name : String
  address : String
  capacity : Int
deriving Repr, DecidableEq

/-- Pydantic field validation for `VenueIn`: `min_length=2`,
`min_length=3`, `ge=1`. -/
def VenueIn.valid (v : VenueIn) : Bool :=
  2 ≤ v.name.length && 3 ≤ v.address.length && 1 ≤ v.capacity

/-- `venue.model_dump()` as an inserted document: no photo key. -/
def VenueIn.toDoc (v : VenueIn) : VenueDoc :=
  ⟨v.name, v.address, v.capacity, none⟩

/-- `$set venue.model_dump()` applied to an existing document: the three
validated fields are overwritten, every other key is kept. -/
def VenueIn.setOn (v : VenueIn) (d : VenueDoc) : VenueDoc :=
  { d with name := v.name, address := v.address, capacity := v.capacity }

/-- `VenueOut` (response model): id plus the `VenueIn` fields only. -/
structure VenueOut where
  id : String
  name : String
  address : String
  capacity : Int
deriving Repr, DecidableEq

def venue_out (id : String) (doc : VenueDoc) : VenueOut :=
  ⟨id, doc.name, doc.address, doc.capacity⟩

/-- `EventIn` (pydantic input model). -/
structure EventIn where
  name : String
  description : Option String
  venue_id : String
  date : String
  max_attendees : Int
deriving Repr, DecidableEq

def EventIn.valid (e : EventIn) : Bool :=
  2 ≤ e.name.length && 24 ≤ e.venue_id.length && 4 ≤ e.date.length &&
    1 ≤ e.max_attendees

def EventIn.toDoc (e : EventIn) : EventDoc :=
  ⟨e.name, e.description, e.venue_id, e.date, e.max_attendees, none, none⟩

def EventIn.setOn (e : EventIn) (d : EventDoc) : EventDoc :=
  { d with name := e.name, description := e.description,
           venue_id := e.venue_id, date := e.date,
           max_attendees := e.max_attendees }

/-- `EventOut`: the input fields plus id and the two attachment keys
(read with `doc.get`, so `none` when absent). -/
structure EventOut where
  id : String
  name : String
  description : Option String
  venue_id : String
  date : String
  max_attendees : Int
  poster_file_id : Option String
  promo_video_file_id : Option String
deriving Repr, DecidableEq

def event_out (id : String) (doc : EventDoc) : EventOut :=
  ⟨id, doc.name, doc.description, doc.venue_id, doc.date,
   doc.max_attendees, doc.poster_file_id, doc.promo_video_file_id⟩

structure AttendeeIn where
  name : String
  email : String
  phone : Option String
deriving Repr, DecidableEq

def AttendeeIn.valid (a : AttendeeIn) : Bool :=
  2 ≤ a.name.length && 5 ≤ a.email.length

def AttendeeIn.toDoc (a : AttendeeIn) : AttendeeDoc :=
  ⟨a.name, a.email, a.phone⟩

def AttendeeIn.setOn (a : AttendeeIn) (d : AttendeeDoc) : AttendeeDoc :=
  { d with name := a.name, email := a.email, phone := a.phone }

structure AttendeeOut where
  id : String
  name : String
  email : String
  phone : Option String
deriving Repr, DecidableEq

def attendee_out (id : String) (doc : AttendeeDoc) : AttendeeOut :=
  ⟨id, doc.name, doc.email, doc.phone⟩

structure BookingIn where
  event_id : String
  attendee_id : String
  tickets : Int
  booking_date : String
deriving Repr, DecidableEq

def BookingIn.valid (b : BookingIn) : Bool :=
  24 ≤ b.event_id.length && 24 ≤ b.attendee_id.length && 1 ≤ b.tickets &&
    4 ≤ b.booking_date.length

def BookingIn.toDoc (b : BookingIn) : BookingDoc :=
  ⟨b.event_id, b.attendee_id, b.tickets, b.booking_date⟩

def BookingIn.setOn (b : BookingIn) (d : BookingDoc) : BookingDoc :=
  { d with event_id := b.event_id, attendee_id := b.attendee_id,
           tickets := b.tickets, booking_date := b.booking_date }

structure BookingOut where
  id : String
  event_id : String
  attendee_id : String
  tickets : Int
  booking_date : String
deriving Repr, DecidableEq

def booking_out (id : String) (doc : BookingDoc) : BookingOut :=
  ⟨id, doc.event_id, doc.attendee_id, doc.tickets, doc.booking_date⟩

/-! ### Venue endpoints -/

/-- `POST /venues`: insert `venue.model_dump()`, re-read by the inserted
id, render with `venue_out`. -/
def create_venue (venue : VenueIn) (st : AppState) :
    Except ApiError VenueOut × AppState :=
  let inserted_id := idOfNat st.nextOid
  let st := { st with
    venues := setFn st.venues inserted_id (some venue.toDoc),
    nextOid := st.nextOid + 1,
    log := .docInsert "venues" inserted_id :: st.log }
  let st := { st with log := .docRead "venues" inserted_id :: st.log }
  match st.venues inserted_id with
  | some doc => (.ok (venue_out inserted_id doc), st)
  | none => (.error .internal, st)

/-- `GET /venues/{venue_id}`. -/
def get_venue (venue_id : String) (st : AppState) :
    Except ApiError VenueOut × AppState :=
  if ¬ isValidObjectId venue_id then
    (.error (.invalidId "Invalid venue id"), st)
  else
    let st := { st with log := .docRead "venues" venue_id :: st.log }
    match st.venues venue_id with
    | none => (.error (.notFound "Venue not found"), st)
    | some doc => (.ok (venue_out venue_id doc), st)

/-- `PUT /venues/{venue_id}`: `update_one({_id}, {$set: model_dump})`,
404 when nothing matched, else re-read and render. -/
def update_venue (venue_id : String) (venue : VenueIn) (st : AppState) :
    Except ApiError VenueOut × AppState :=
  if ¬ isValidObjectId venue_id then
    (.error (.invalidId "Invalid venue id"), st)
  else
    let matched := (st.venues venue_id).isSome
    let st := { st with
      venues := match st.venues venue_id with
        | some d => setFn st.venues venue_id (some (venue.setOn d))
        | none => st.venues,
      log := .docUpdate "venues" venue_id :: st.log }
    if ¬ matched then
      (.error (.notFound "Venue not found"), st)
    else
      let st := { st with log := .docRead "venues" venue_id :: st.log }
      match st.venues venue_id with
      | some doc => (.ok (venue_out venue_id doc), st)
      | none => (.error .internal, st)

/-- `DELETE /venues/{venue_id}`. -/
def delete_venue (venue_id : String) (st : AppState) :
    Except ApiError String × AppState :=
  if ¬ isValidObjectId venue_id then
    (.error (.invalidId "Invalid venue id"), st)
  else
    let deleted := (st.venues venue_id).isSome
    let st := { st with
      venues := if (st.venues venue_id).isSome then
          setFn st.venues venue_id none
        else st.venues,
      log := .docDelete "venues" venue_id :: st.log }
    if ¬ deleted then (.error (.notFound "Venue not found"), st)
    else (.ok "Venue deleted", st)

/-! ### Event endpoints -/

/-- `POST /events`: validate `venue_id`, require the venue to exist,
then insert and re-read. -/
def create_event (event : EventIn) (st : AppState) :
    Except ApiError EventOut × AppState :=
  if ¬ isValidObjectId event.venue_id then
    (.error (.invalidId "Invalid venue id"), st)
  else
    let st := { st with log := .docRead "venues" event.venue_id :: st.log }
    match st.venues event.venue_id with
    | none => (.error (.notFound "Venue not found"), st)
    | some _ =>
      let inserted_id := idOfNat st.nextOid
      let st := { st with
        events := setFn st.events inserted_id (some event.toDoc),
        nextOid := st.nextOid + 1,
        log := .docInsert "events" inserted_id :: st.log }
      let st := { st with log := .docRead "events" inserted_id :: st.log }
      match st.events inserted_id with
      | some doc => (.ok (event_out inserted_id doc), st)
      | none => (.error .internal, st)

/-- `GET /events/{event_id}`. -/
def get_event (event_id : String) (st : AppState) :
    Except ApiError EventOut × AppState :=
  if ¬ isValidObjectId event_id then
    (.error (.invalidId "Invalid event id"), st)
  else
    let st := { st with log := .docRead "events" event_id :: st.log }
    match st.events event_id with
    | none => (.error (.notFound "Event not found"), st)
    | some doc => (.ok (event_out event_id doc), st)

/-- `PUT /events/{event_id}`: check the path id, then the body's
`venue_id`, then that that venue exists, then `$set` the validated
fields and re-read. -/
def update_event (event_id : String) (event : EventIn) (st : AppState) :
    Except ApiError EventOut × AppState :=
  if ¬ isValidObjectId event_id then
    (.error (.invalidId "Invalid event id"), st)
  else if ¬ isValidObjectId event.venue_id then
    (.error (.invalidId "Invalid venue id"), st)
  else
    let st := { st with log := .docRead "venues" event.venue_id :: st.log }
    match st.venues event.venue_id with
    | none => (.error (.notFound "Venue not found"), st)
    | some _ =>
      let matched := (st.events event_id).isSome
      let st := { st with
        events := match st.events event_id with
          | some d => setFn st.events event_id (some (event.setOn d))
          | none => st.events,
        log := .docUpdate "events" event_id :: st.log }
      if ¬ matched then
        (.error (.notFound "Event not found"), st)
      else
        let st := { st with log := .docRead "events" event_id :: st.log }
        match st.events event_id with
        | some doc => (.ok (event_out event_id doc), st)
        | none => (.error .internal, st)

/-- `DELETE /events/{event_id}`. -/
def delete_event (event_id : String) (st : AppState) :
    Except ApiError String × AppState :=
  if ¬ isValidObjectId event_id then
    (.error (.invalidId "Invalid event id"), st)
  else
    let deleted := (st.events event_id).isSome
    let st := { st with
      events := if (st.events event_id).isSome then
          setFn st.events event_id none
        else st.events,
      log := .docDelete "events" event_id :: st.log }
    if ¬ deleted then (.error (.notFound "Event not found"), st)
    else (.ok "Event deleted", st)

/-! ### Booking endpoints -/

/-- `POST /bookings`: validate both ids, check the event's existence
first, then the attendee's, then insert and re-read. -/
def create_booking (booking : BookingIn) (st : AppState) :
    Except ApiError BookingOut × AppState :=
  if ¬ isValidObjectId booking.event_id then
    (.error (.invalidId "Invalid event id"), st)
  else if ¬ isValidObjectId booking.attendee_id then
    (.error (.invalidId "Invalid attendee id"), st)
  else
    let st := { st with log := .docRead "events" booking.event_id :: st.log }
    match st.events booking.event_id with
    | none => (.error (.notFound "Event not found"), st)
    | some _ =>
      let st := { st with
        log := .docRead "attendees" booking.attendee_id :: st.log }
      match st.attendees booking.attendee_id with
      | none => (.error (.notFound "Attendee not found"), st)
      | some _ =>
        let inserted_id := idOfNat st.nextOid
        let st := { st with
          bookings := setFn st.bookings inserted_id (some booking.toDoc),
          nextOid := st.nextOid + 1,
          log := .docInsert "bookings" inserted_id :: st.log }
        let st := { st with log := .docRead "bookings" inserted_id :: st.log }
        match st.bookings inserted_id with
        | some doc => (.ok (booking_out inserted_id doc), st)
        | none => (.error .internal, st)

/-- `GET /bookings/{booking_id}`. -/
def get_booking (booking_id : String) (st : AppState) :
    Except ApiError BookingOut × AppState :=
  if ¬ isValidObjectId booking_id then
    (.error (.invalidId "Invalid booking id"), st)
  else
    let st := { st with log := .docRead "bookings" booking_id :: st.log }
    match st.bookings booking_id with
    | none => (.error (.notFound "Booking not found"), st)
    | some doc => (.ok (booking_out booking_id doc), st)

/-- `PUT /bookings/{booking_id}`: id checks in source order (booking,
event, attendee), event existence before attendee existence, then
`$set` and re-read. -/
def update_booking (booking_id : String) (booking : BookingIn)
    (st : AppState) : Except ApiError BookingOut × AppState :=
  if ¬ isValidObjectId booking_id then
    (.error (.invalidId "Invalid booking id"), st)
  else if ¬ isValidObjectId booking.event_id then
    (.error (.invalidId "Invalid event id"), st)
  else if ¬ isValidObjectId booking.attendee_id then
    (.error (.invalidId "Invalid attendee id"), st)
  else
    let st := { st with log := .docRead "events" booking.event_id :: st.log }
    match st.events booking.event_id with
    | none => (.error (.notFound "Event not found"), st)
    | some _ =>
      let st := { st with
        log := .docRead "attendees" booking.attendee_id :: st.log }
      match st.attendees booking.attendee_id with
      | none => (.error (.notFound "Attendee not found"), st)
      | some _ =>
        let matched := (st.bookings booking_id).isSome
        let st := { st with
          bookings := match st.bookings booking_id with
            | some d => setFn st.bookings booking_id (some (booking.setOn d))
            | none => st.bookings,
          log := .docUpdate "bookings" booking_id :: st.log }
        if ¬ matched then
          (.error (.notFound "Booking not found"), st)
        else
          let st := { st with
            log := .docRead "bookings" booking_id :: st.log }
          match st.bookings booking_id with
          | some doc => (.ok (booking_out booking_id doc), st)
          | none => (.error .internal, st)

/-- `DELETE /bookings/{booking_id}`. -/
def delete_booking (booking_id : String) (st : AppState) :
    Except ApiError String × AppState :=
  if ¬ isValidObjectId booking_id then
    (.error (.invalidId "Invalid booking id"), st)
  else
    let deleted := (st.bookings booking_id).isSome
    let st := { st with
      bookings := if (st.bookings booking_id).isSome then
          setFn st.bookings booking_id none
        else st.bookings,
      log := .docDelete "bookings" booking_id :: st.log }
    if ¬ deleted then (.error (.notFound "Booking not found"), st)
    else (.ok "Booking deleted", st)

/-! ### Attendee endpoints -/

/-- `POST /attendees`. -/
def create_attendee (attendee : AttendeeIn) (st : AppState) :
    Except ApiError AttendeeOut × AppState :=
  let inserted_id := idOfNat st.nextOid
  let st := { st with
    attendees := setFn st.attendees inserted_id (some attendee.toDoc),
    nextOid := st.nextOid + 1,
    log := .docInsert "attendees" inserted_id :: st.log }
  let st := { st with log := .docRead "attendees" inserted_id :: st.log }
  match st.attendees inserted_id with
  | some doc => (.ok (attendee_out inserted_id doc), st)
  | none => (.error .internal, st)

/-- `GET /attendees/{attendee_id}`. -/
def get_attendee (attendee_id : String) (st : AppState) :
    Except ApiError AttendeeOut × AppState :=
  if ¬ isValidObjectId attendee_id then
    (.error (.invalidId "Invalid attendee id"), st)
  else
    let st := { st with log := .docRead "attendees" attendee_id :: st.log }
    match st.attendees attendee_id with
    | none => (.error (.notFound "Attendee not found"), st)
    | some doc => (.ok (attendee_out attendee_id doc), st)

/-- `PUT /attendees/{attendee_id}`. -/
def update_attendee (attendee_id : String) (attendee : AttendeeIn)
    (st : AppState) : Except ApiError AttendeeOut × AppState :=
  if ¬ isValidObjectId attendee_id then
    (.error (.invalidId "Invalid attendee id"), st)
  else
    let matched := (st.attendees attendee_id).isSome
    let st := { st with
      attendees := match st.attendees attendee_id with
        | some d => setFn st.attendees attendee_id (some (attendee.setOn d))
        | none => st.attendees,
      log := .docUpdate "attendees" attendee_id :: st.log }
    if ¬ matched then
      (.error (.notFound "Attendee not found"), st)
    else
      let st := { st with log := .docRead "attendees" attendee_id :: st.log }
      match st.attendees attendee_id with
      | some doc => (.ok (attendee_out attendee_id doc), st)
      | none => (.error .internal, st)

/-- `DELETE /attendees/{attendee_id}`. -/
def delete_attendee (attendee_id : String) (st : AppState) :
    Except ApiError String × AppState :=
  if ¬ isValidObjectId attendee_id then
    (.error (.invalidId "Invalid attendee id"), st)
  else
    let deleted := (st.attendees attendee_id).isSome
    let st := { st with
      attendees := if (st.attendees attendee_id).isSome then
          setFn st.attendees attendee_id none
        else st.attendees,
      log := .docDelete "attendees" attendee_id :: st.log }
    if ¬ deleted then (.error (.notFound "Attendee not found"), st)
    else (.ok "Attendee deleted", st)

/-! ### Media (GridFS) endpoints -/

/-- The uploaded multipart file: bytes, optional filename, optional
content type (Starlette `UploadFile`). -/
structure UploadFile where
  content : List Nat
  filename : Option String
  content_type : Option String
deriving Repr, DecidableEq

/-- The JSON body the upload endpoints return on success. -/
structure UploadResult where
  message : String
  file_id : String
deriving Repr, DecidableEq

/-- The streamed blob: body bytes, media type, stored filename. -/
structure MediaResponse where
  body : List Nat
  mediaType : String
  filename : Option String
deriving Repr, DecidableEq

/-- `fs.put(content, filename=…, contentType=…, meta=…)`: stores the
blob under a fresh id and returns that id. -/
def fsPut (st : AppState) (content : List Nat)
    (filename content_type : Option String)
    (meta : List (String × String)) : String × AppState :=
  let file_id := idOfNat st.nextFid
  (file_id,
   { st with
     blobs := setFn st.blobs file_id
       (some ⟨content, filename, content_type, meta⟩),
     nextFid := st.nextFid + 1,
     log := .blobPut file_id :: st.log })

/-- `grid_out.content_type or "application/octet-stream"`: Python `or`
falls through on `None` and on the falsy empty string. -/
def orOctetStream (c : Option String) : String :=
  match c with
  | some s => if s = "" then "application/octet-stream" else s
  | none => "application/octet-stream"

/-- `POST /venues/{venue_id}/photo`: after the id-format check the blob
is stored unconditionally; the owner update is a `$set` that silently
matches zero documents when the venue does not exist, and the endpoint
returns success either way (the matched count is never inspected). -/
def upload_venue_photo (venue_id : String) (file : UploadFile)
    (st : AppState) : Except ApiError UploadResult × AppState :=
  if ¬ isValidObjectId venue_id then
    (.error (.invalidId "Invalid venue id"), st)
  else
    let put := fsPut st file.content file.filename file.content_type
      [("type", "venue_photo"), ("venue_id", venue_id)]
    let file_id := put.1
    let st := put.2
    let st := { st with
      venues := match st.venues venue_id with
        | some d => setFn st.venues venue_id
            (some { d with photo_file_id := some file_id })
        | none => st.venues,
      log := .docUpdate "venues" venue_id :: st.log }
    (.ok ⟨"Venue photo uploaded", file_id⟩, st)

/-- `GET /venues/{venue_id}/photo`: 404 when the venue is missing or has
no `photo_file_id` key; a stored id that is malformed or dangling makes
`ObjectId(file_id)` / `fs.get` raise (modelled as `internal`). -/
def get_venue_photo (venue_id : String) (st : AppState) :
    Except ApiError MediaResponse × AppState :=
  if ¬ isValidObjectId venue_id then
    (.error (.invalidId "Invalid venue id"), st)
  else
    let st := { st with log := .docRead "venues" venue_id :: st.log }
    match st.venues venue_id with
    | none => (.error (.notFound "Venue photo not found"), st)
    | some venue =>
      match venue.photo_file_id with
      | none => (.error (.notFound "Venue photo not found"), st)
      | some file_id =>
        if ¬ isValidObjectId file_id then (.error .internal, st)
        else
          let st := { st with log := .blobGet file_id :: st.log }
          match st.blobs file_id with
          | none => (.error .internal, st)
          | some grid_out =>
            (.ok ⟨grid_out.content, orOctetStream grid_out.contentType,
                  grid_out.filename⟩, st)

/-- `POST /events/{event_id}/poster`: same shape as the venue photo
upload, targeting `poster_file_id`. -/
def upload_event_poster (event_id : String) (file : UploadFile)
    (st : AppState) : Except ApiError UploadResult × AppState :=
  if ¬ isValidObjectId event_id then
    (.error (.invalidId "Invalid event id"), st)
  else
    let put := fsPut st file.content file.filename file.content_type
      [("type", "event_poster"), ("event_id", event_id)]
    let file_id := put.1
    let st := put.2
    let st := { st with
      events := match st.events event_id with
        | some d => setFn st.events event_id
            (some { d with poster_file_id := some file_id })
        | none => st.events,
      log := .docUpdate "events" event_id :: st.log }
    (.ok ⟨"Event poster uploaded", file_id⟩, st)

/-- `GET /events/{event_id}/poster`. -/
def get_event_poster (event_id : String) (st : AppState) :
    Except ApiError MediaResponse × AppState :=
  if ¬ isValidObjectId event_id then
    (.error (.invalidId "Invalid event id"), st)
  else
    let st := { st with log := .docRead "events" event_id :: st.log }
    match st.events event_id with
    | none => (.error (.notFound "Event poster not found"), st)
    | some event =>
      match event.poster_file_id with
      | none => (.error (.notFound "Event poster not found"), st)
      | some file_id =>
        if ¬ isValidObjectId file_id then (.error .internal, st)
        else
          let st := { st with log := .blobGet file_id :: st.log }
          match st.blobs file_id with
          | none => (.error .internal, st)
          | some grid_out =>
            (.ok ⟨grid_out.content, orOctetStream grid_out.contentType,
                  grid_out.filename⟩, st)

/-- `POST /events/{event_id}/promo-video`: targets
`promo_video_file_id`. -/
def upload_event_video (event_id : String) (file : UploadFile)
    (st : AppState) : Except ApiError UploadResult × AppState :=
  if ¬ isValidObjectId event_id then
    (.error (.invalidId "Invalid event id"), st)
  else
    let put := fsPut st file.content file.filename file.content_type
      [("type", "promo_video"), ("event_id", event_id)]
    let file_id := put.1
    let st := put.2
    let st := { st with
      events := match st.events event_id with
        | some d => setFn st.events event_id
            (some { d with promo_video_file_id := some file_id })
        | none => st.events,
      log := .docUpdate "events" event_id :: st.log }
    (.ok ⟨"Promo video uploaded", file_id⟩, st)

/-- `GET /events/{event_id}/promo-video`. -/
def get_event_video (event_id : String) (st : AppState) :
    Except ApiError MediaResponse × AppState :=
  if ¬ isValidObjectId event_id then
    (.error (.invalidId "Invalid event id"), st)
  else
    let st := { st with log := .docRead "events" event_id :: st.log }
    match st.events event_id with
    | none => (.error (.notFound "Promo video not found"), st)
    | some event =>
      match event.promo_video_file_id with
      | none => (.error (.notFound "Promo video not found"), st)
      | some file_id =>
        if ¬ isValidObjectId file_id then (.error .internal, st)
        else
          let st := { st with log := .blobGet file_id :: st.log }
          match st.blobs file_id with
          | none => (.error .internal, st)
          | some grid_out =>
            (.ok ⟨grid_out.content, orOctetStream grid_out.contentType,
                  grid_out.filename⟩, st)

/-! ### Concrete fixtures used by the witnesses and counterexamples -/

def vid0 : String := "aaaaaaaaaaaaaaaaaaaaaaaa"
def vid1 : String := "ffffffffffffffffffffffff"
def eid0 : String := "bbbbbbbbbbbbbbbbbbbbbbbb"
def aid0 : String := "cccccccccccccccccccccccc"
def bid0 : String := "dddddddddddddddddddddddd"
def fid0 : String := "eeeeeeeeeeeeeeeeeeeeeeee"
def badId : String := "zzz"

def emptyState : AppState :=
  ⟨fun _ => none, fun _ => none, fun _ => none, fun _ => none,
   fun _ => none, 0, 0, []⟩

def venueDoc0 : VenueDoc := ⟨"Hall A", "1 Main St", 100, none⟩
def venueDoc1 : VenueDoc := ⟨"Hall B", "2 Side St", 50, some fid0⟩
def eventDoc0 : EventDoc :=
  ⟨"Expo", none, vid0, "2026-01-01", 50, some fid0, none⟩
def attendeeDoc0 : AttendeeDoc := ⟨"Ann Lee", "ann@example.com", none⟩
def bookingDoc0 : BookingDoc := ⟨eid0, aid0, 2, "2026-01-02"⟩
def blob0 : Blob := ⟨[1, 2, 3], some "a.png", some "image/png", []⟩

/-- One venue (with a photo at `vid1`), one event carrying a poster id,
one attendee, one booking, and the poster/photo blob itself. -/
def baseState : AppState :=
  { emptyState with
    venues := setFn (setFn emptyState.venues vid0 (some venueDoc0))
      vid1 (some venueDoc1),
    events := setFn emptyState.events eid0 (some eventDoc0),
    attendees := setFn emptyState.attendees aid0 (some attendeeDoc0),
    bookings := setFn emptyState.bookings bid0 (some bookingDoc0),
    blobs := setFn emptyState.blobs fid0 (some blob0) }

def venueIn0 : VenueIn := ⟨"Hall C", "3 New St", 200⟩
def eventIn0 : EventIn := ⟨"Fair", some "a fair", vid0, "2026-03-03", 75⟩
def attendeeIn0 : AttendeeIn := ⟨"Bob Roy", "bob@example.com", some "123"⟩
def bookingIn0 : BookingIn := ⟨eid0, aid0, 1, "2026-04-04"⟩
def file0 : UploadFile := ⟨[7, 8, 9], some "p.jpg", some "image/jpeg"⟩
def fileEmptyCt : UploadFile := ⟨[9, 9], some "x.bin", some ""⟩

/-! ### Claim theorems -/

/-- C3: Booking create and update check references in a fixed order,
event before attendee: for every Booking input whose `event_id` and
`attendee_id` are both well-formed but neither resolves to an existing
document, both operations fail with the event's NotFound error. -/
theorem C3_booking_event_checked_before_attendee
    (st : AppState) (bk : String) (b : BookingIn)
    (hbk : isValidObjectId bk = true)
    (he : isValidObjectId b.event_id = true)
    (ha : isValidObjectId b.attendee_id = true)
    (hne : st.events b.event_id = none)
    (hna : st.attendees b.attendee_id = none) :
    (create_booking b st).1 = .error (.notFound "Event not found") ∧
    (update_booking bk b st).1 = .error (.notFound "Event not found") := by
  constructor <;> simp [create_booking, update_booking, hbk, he, ha, hne]

/-- C3 witness: concrete booking whose event and attendee both do not
exist; create and update both report the event. -/
theorem C3_witness :
    (create_booking bookingIn0 emptyState).1 =
      .error (.notFound "Event not found") ∧
    (update_booking bid0 bookingIn0 emptyState).1 =
      .error (.notFound "Event not found") :=
  C3_booking_event_checked_before_attendee emptyState bid0 bookingIn0
    rfl rfl rfl rfl rfl

/-- C4: creating an Event with a well-formed `venue_id` that matches no
Venue fails with NotFound(Venue) and leaves the events collection
unchanged. -/
theorem C4_create_event_nonexistent_venue
    (st : AppState) (e : EventIn)
    (hv : isValidObjectId e.venue_id = true)
    (hnv : st.venues e.venue_id = none) :
    (create_event e st).1 = .error (.notFound "Venue not found") ∧
    (create_event e st).2.events = st.events := by
  constructor <;> simp [create_event, hv, hnv]

/-- C4 witness: concrete event input against an empty store. -/
theorem C4_witness :
    (create_event eventIn0 emptyState).1 =
      .error (.notFound "Venue not found") ∧
    (create_event eventIn0 emptyState).2.events = emptyState.events :=
  C4_create_event_nonexistent_venue emptyState eventIn0 rfl rfl

/-- C8: for every resource type, a successful delete followed by get on
the same id fails with NotFound. -/
theorem C8_delete_then_get_not_found
    (st : AppState) (i1 i2 i3 i4 : String)
    (h1 : isValidObjectId i1 = true) (d1 : (st.venues i1).isSome = true)
    (h2 : isValidObjectId i2 = true) (d2 : (st.events i2).isSome = true)
    (h3 : isValidObjectId i3 = true) (d3 : (st.attendees i3).isSome = true)
    (h4 : isValidObjectId i4 = true) (d4 : (st.bookings i4).isSome = true) :
    ((delete_venue i1 st).1 = .ok "Venue deleted" ∧
     (get_venue i1 (delete_venue i1 st).2).1 =
       .error (.notFound "Venue not found")) ∧
    ((delete_event i2 st).1 = .ok "Event deleted" ∧
     (get_event i2 (delete_event i2 st).2).1 =
       .error (.notFound "Event not found")) ∧
    ((delete_attendee i3 st).1 = .ok "Attendee deleted" ∧
     (get_attendee i3 (delete_attendee i3 st).2).1 =
       .error (.notFound "Attendee not found")) ∧
    ((delete_booking i4 st).1 = .ok "Booking deleted" ∧
     (get_booking i4 (delete_booking i4 st).2).1 =
       .error (.notFound "Booking not found")) := by
  refine ⟨⟨?_, ?_⟩, ⟨?_, ?_⟩, ⟨?_, ?_⟩, ⟨?_, ?_⟩⟩ <;>
    simp [delete_venue, get_venue, delete_event, get_event,
      delete_attendee, get_attendee, delete_booking, get_booking,
      setFn, h1, h2, h3, h4, d1, d2, d3, d4]

/-- C8 witness: delete each of the four fixture documents, then get. -/
theorem C8_witness :
    ((delete_venue vid0 baseState).1 = .ok "Venue deleted" ∧
     (get_venue vid0 (delete_venue vid0 baseState).2).1 =
       .error (.notFound "Venue not found")) ∧
    ((delete_event eid0 baseState).1 = .ok "Event deleted" ∧
     (get_event eid0 (delete_event eid0 baseState).2).1 =
       .error (.notFound "Event not found")) ∧
    ((delete_attendee aid0 baseState).1 = .ok "Attendee deleted" ∧
     (get_attendee aid0 (delete_attendee aid0 baseState).2).1 =
       .error (.notFound "Attendee not found")) ∧
    ((delete_booking bid0 baseState).1 = .ok "Booking deleted" ∧
     (get_booking bid0 (delete_booking bid0 baseState).2).1 =
       .error (.notFound "Booking not found")) :=
  C8_delete_then_get_not_found baseState vid0 eid0 aid0 bid0
    rfl rfl rfl rfl rfl rfl rfl rfl

/-- C9: for every operation that takes a target or reference id, a
malformed id makes the operation fail with InvalidId (status 400) and
return the state unchanged — in particular the adapter-access log is
untouched, so no document-store or object-store call happened. -/
theorem C9_invalid_id_rejected_without_storage_access
    (st : AppState) (s t : String)
    (hs : isValidObjectId s = false) (ht : isValidObjectId t = true)
    (v : VenueIn) (e : EventIn) (a : AttendeeIn) (b : BookingIn)
    (f : UploadFile) :
    (∀ m, (ApiError.invalidId m).status = 400) ∧
    get_venue s st = (.error (.invalidId "Invalid venue id"), st) ∧
    update_venue s v st = (.error (.invalidId "Invalid venue id"), st) ∧
    delete_venue s st = (.error (.invalidId "Invalid venue id"), st) ∧
    get_event s st = (.error (.invalidId "Invalid event id"), st) ∧
    update_event s e st = (.error (.invalidId "Invalid event id"), st) ∧
    update_event t { e with venue_id := s } st =
      (.error (.invalidId "Invalid venue id"), st) ∧
    delete_event s st = (.error (.invalidId "Invalid event id"), st) ∧
    create_event { e with venue_id := s } st =
      (.error (.invalidId "Invalid venue id"), st) ∧
    get_attendee s st = (.error (.invalidId "Invalid attendee id"), st) ∧
    update_attendee s a st = (.error (.invalidId "Invalid attendee id"), st) ∧
    delete_attendee s st = (.error (.invalidId "Invalid attendee id"), st) ∧
    get_booking s st = (.error (.invalidId "Invalid booking id"), st) ∧
    update_booking s b st = (.error (.invalidId "Invalid booking id"), st) ∧
    update_booking t { b with event_id := s } st =
      (.error (.invalidId "Invalid event id"), st) ∧
    update_booking t { b with event_id := t, attendee_id := s } st =
      (.error (.invalidId "Invalid attendee id"), st) ∧
    create_booking { b with event_id := s } st =
      (.error (.invalidId "Invalid event id"), st) ∧
    create_booking { b with event_id := t, attendee_id := s } st =
      (.error (.invalidId "Invalid attendee id"), st) ∧
    delete_booking s st = (.error (.invalidId "Invalid booking id"), st) ∧
    upload_venue_photo s f st = (.error (.invalidId "Invalid venue id"), st) ∧
    get_venue_photo s st = (.error (.invalidId "Invalid venue id"), st) ∧
    upload_event_poster s f st = (.error (.invalidId "Invalid event id"), st) ∧
    get_event_poster s st = (.error (.invalidId "Invalid event id"), st) ∧
    upload_event_video s f st = (.error (.invalidId "Invalid event id"), st) ∧
    get_event_video s st = (.error (.invalidId "Invalid event id"), st) := by
  simp [ApiError.status, get_venue, update_venue, delete_venue, get_event,
    update_event, delete_event, create_event, get_attendee,
    update_attendee, delete_attendee, get_booking, update_booking,
    create_booking, delete_booking, upload_venue_photo, get_venue_photo,
    upload_event_poster, get_event_poster, upload_event_video,
    get_event_video, hs, ht]

/-- C9 witness: the malformed id `"zzz"` against the fixture state is
rejected by `get_venue` with the state returned untouched. -/
theorem C9_witness :
    isValidObjectId badId = false ∧
    get_venue badId baseState =
      (.error (.invalidId "Invalid venue id"), baseState) :=
  ⟨rfl,
   (C9_invalid_id_rejected_without_storage_access baseState badId vid0
     rfl rfl venueIn0 eventIn0 attendeeIn0 bookingIn0 file0).2.1⟩

/-- C5: round-trip for all four resource types: when create succeeds on a
valid input (referenced entities existing where required), it returns the
rendered record under the freshly generated id, and an immediate get of
that record's id returns the same record. -/
theorem C5_create_then_get_roundtrip
    (st : AppState) (v : VenueIn) (a : AttendeeIn) (e : EventIn)
    (b : BookingIn)
    (hv : v.valid = true) (ha : a.valid = true) (he : e.valid = true)
    (hb : b.valid = true)
    (hev : isValidObjectId e.venue_id = true)
    (hevx : (st.venues e.venue_id).isSome = true)
    (hbe : isValidObjectId b.event_id = true)
    (hbex : (st.events b.event_id).isSome = true)
    (hba : isValidObjectId b.attendee_id = true)
    (hbax : (st.attendees b.attendee_id).isSome = true) :
    ((create_venue v st).1 = .ok (venue_out (idOfNat st.nextOid) v.toDoc) ∧
     (get_venue (venue_out (idOfNat st.nextOid) v.toDoc).id
        (create_venue v st).2).1 =
       .ok (venue_out (idOfNat st.nextOid) v.toDoc)) ∧
    ((create_attendee a st).1 =
       .ok (attendee_out (idOfNat st.nextOid) a.toDoc) ∧
     (get_attendee (attendee_out (idOfNat st.nextOid) a.toDoc).id
        (create_attendee a st).2).1 =
       .ok (attendee_out (idOfNat st.nextOid) a.toDoc)) ∧
    ((create_event e st).1 = .ok (event_out (idOfNat st.nextOid) e.toDoc) ∧
     (get_event (event_out (idOfNat st.nextOid) e.toDoc).id
        (create_event e st).2).1 =
       .ok (event_out (idOfNat st.nextOid) e.toDoc)) ∧
    ((create_booking b st).1 =
       .ok (booking_out (idOfNat st.nextOid) b.toDoc) ∧
     (get_booking (booking_out (idOfNat st.nextOid) b.toDoc).id
        (create_booking b st).2).1 =
       .ok (booking_out (idOfNat st.nextOid) b.toDoc)) := by
  obtain ⟨vd, hvd⟩ := Option.isSome_iff_exists.mp hevx
  obtain ⟨ed, hed⟩ := Option.isSome_iff_exists.mp hbex
  obtain ⟨ad, had⟩ := Option.isSome_iff_exists.mp hbax
  refine ⟨⟨?_, ?_⟩, ⟨?_, ?_⟩, ⟨?_, ?_⟩, ⟨?_, ?_⟩⟩ <;>
    simp [create_venue, get_venue, create_attendee, get_attendee,
      create_event, get_event, create_booking, get_booking,
      venue_out, attendee_out, event_out, booking_out, setFn,
      idOfNat_valid, hev, hbe, hba, hvd, hed, had]

/-- C5 witness: create each of the four resources against the fixture
state and read each one back. -/
theorem C5_witness :
    ((create_venue venueIn0 baseState).1 =
       .ok (venue_out (idOfNat 0) venueIn0.toDoc) ∧
     (get_venue (venue_out (idOfNat 0) venueIn0.toDoc).id
        (create_venue venueIn0 baseState).2).1 =
       .ok (venue_out (idOfNat 0) venueIn0.toDoc)) ∧
    ((create_attendee attendeeIn0 baseState).1 =
       .ok (attendee_out (idOfNat 0) attendeeIn0.toDoc) ∧
     (get_attendee (attendee_out (idOfNat 0) attendeeIn0.toDoc).id
        (create_attendee attendeeIn0 baseState).2).1 =
       .ok (attendee_out (idOfNat 0) attendeeIn0.toDoc)) ∧
    ((create_event eventIn0 baseState).1 =
       .ok (event_out (idOfNat 0) eventIn0.toDoc) ∧
     (get_event (event_out (idOfNat 0) eventIn0.toDoc).id
        (create_event eventIn0 baseState).2).1 =
       .ok (event_out (idOfNat 0) eventIn0.toDoc)) ∧
    ((create_booking bookingIn0 baseState).1 =
       .ok (booking_out (idOfNat 0) bookingIn0.toDoc) ∧
     (get_booking (booking_out (idOfNat 0) bookingIn0.toDoc).id
        (create_booking bookingIn0 baseState).2).1 =
       .ok (booking_out (idOfNat 0) bookingIn0.toDoc)) :=
  C5_create_then_get_roundtrip baseState venueIn0 attendeeIn0 eventIn0
    bookingIn0 rfl rfl rfl rfl rfl rfl rfl rfl rfl rfl

/-- C7: media resolve fails with InvalidId (400) on a malformed owner
id; fails with NotFound (404) both when no owner document exists and
when the owner's attachment field for the slot is unset; otherwise it
fetches the stored blob and returns its bytes, its content type run
through the octet-stream default, and its filename. -/
theorem C7_media_resolve_cases (st : AppState) (oid : String) :
    ((∀ m, (ApiError.invalidId m).status = 400) ∧
     (∀ m, (ApiError.notFound m).status = 404)) ∧
    (isValidObjectId oid = false →
      (get_venue_photo oid st).1 = .error (.invalidId "Invalid venue id") ∧
      (get_event_poster oid st).1 = .error (.invalidId "Invalid event id") ∧
      (get_event_video oid st).1 = .error (.invalidId "Invalid event id")) ∧
    (isValidObjectId oid = true →
      (st.venues oid = none →
        (get_venue_photo oid st).1 =
          .error (.notFound "Venue photo not found")) ∧
      (∀ vd, st.venues oid = some vd → vd.photo_file_id = none →
        (get_venue_photo oid st).1 =
          .error (.notFound "Venue photo not found")) ∧
      (∀ vd fid blob, st.venues oid = some vd →
        vd.photo_file_id = some fid → isValidObjectId fid = true →
        st.blobs fid = some blob →
        (get_venue_photo oid st).1 =
          .ok ⟨blob.content, orOctetStream blob.contentType,
               blob.filename⟩) ∧
      (st.events oid = none →
        (get_event_poster oid st).1 =
          .error (.notFound "Event poster not found") ∧
        (get_event_video oid st).1 =
          .error (.notFound "Promo video not found")) ∧
      (∀ ed, st.events oid = some ed →
        (ed.poster_file_id = none →
          (get_event_poster oid st).1 =
            .error (.notFound "Event poster not found")) ∧
        (ed.promo_video_file_id = none →
          (get_event_video oid st).1 =
            .error (.notFound "Promo video not found")) ∧
        (∀ fid blob, ed.poster_file_id = some fid →
          isValidObjectId fid = true → st.blobs fid = some blob →
          (get_event_poster oid st).1 =
            .ok ⟨blob.content, orOctetStream blob.contentType,
                 blob.filename⟩) ∧
        (∀ fid blob, ed.promo_video_file_id = some fid →
          isValidObjectId fid = true → st.blobs fid = some blob →
          (get_event_video oid st).1 =
            .ok ⟨blob.content, orOctetStream blob.contentType,
                 blob.filename⟩))) := by
  refine ⟨⟨fun m => rfl, fun m => rfl⟩, ?_, ?_⟩
  · intro hbad
    refine ⟨?_, ?_, ?_⟩ <;>
      simp [get_venue_photo, get_event_poster, get_event_video, hbad]
  · intro hok
    refine ⟨?_, ?_, ?_, ?_, ?_⟩
    · intro hnone
      simp [get_venue_photo, hok, hnone]
    · intro vd hvd hph
      simp [get_venue_photo, hok, hvd, hph]
    · intro vd fid blob hvd hph hfid hblob
      simp [get_venue_photo, hok, hvd, hph, hfid, hblob]
    · intro hnone
      constructor <;>
        simp [get_event_poster, get_event_video, hok, hnone]
    · intro ed hed
      refine ⟨?_, ?_, ?_, ?_⟩
      · intro hps
        simp [get_event_poster, hok, hed, hps]
      · intro hpv
        simp [get_event_video, hok, hed, hpv]
      · intro fid blob hps hfid hblob
        simp [get_event_poster, hok, hed, hps, hfid, hblob]
      · intro fid blob hpv hfid hblob
        simp [get_event_video, hok, hed, hpv, hfid, hblob]

/-- C7 witness: against the fixture state, a malformed id is a 400, a
venue without a photo is a 404, and the venue and event carrying the
stored blob id stream back the fixture blob. -/
theorem C7_witness :
    (get_venue_photo badId baseState).1 =
      .error (.invalidId "Invalid venue id") ∧
    (get_venue_photo vid0 baseState).1 =
      .error (.notFound "Venue photo not found") ∧
    (get_venue_photo vid1 baseState).1 =
      .ok ⟨blob0.content, orOctetStream blob0.contentType,
           blob0.filename⟩ ∧
    (get_event_poster eid0 baseState).1 =
      .ok ⟨blob0.content, orOctetStream blob0.contentType,
           blob0.filename⟩ ∧
    (get_event_video eid0 baseState).1 =
      .error (.notFound "Promo video not found") :=
  ⟨((C7_media_resolve_cases baseState badId).2.1 rfl).1,
   ((C7_media_resolve_cases baseState vid0).2.2 rfl).2.1 venueDoc0 rfl rfl,
   ((C7_media_resolve_cases baseState vid1).2.2 rfl).2.2.1 venueDoc1 fid0
     blob0 rfl rfl rfl rfl,
   (((C7_media_resolve_cases baseState eid0).2.2 rfl).2.2.2.2 eventDoc0
     rfl).2.2.1 fid0 blob0 rfl rfl rfl,
   (((C7_media_resolve_cases baseState eid0).2.2 rfl).2.2.2.2 eventDoc0
     rfl).2.1 rfl⟩

/-- C10: a successful Venue update leaves `photo_file_id` unchanged and
a successful Event update leaves `poster_file_id` and
`promo_video_file_id` unchanged (the `$set` covers only the validated
input fields); hence for a venue with an attached photo, updating the
venue and then resolving its photo returns the same response as
resolving it before the update. -/
theorem C10_update_preserves_attachment_fields
    (st : AppState) (vIn : VenueIn) (eIn : EventIn) (vid eid : String)
    (vd : VenueDoc) (ed : EventDoc) (fid : String)
    (hvid : isValidObjectId vid = true) (hvd : st.venues vid = some vd)
    (heid : isValidObjectId eid = true) (hed : st.events eid = some ed)
    (hev : isValidObjectId eIn.venue_id = true)
    (hevx : (st.venues eIn.venue_id).isSome = true)
    (hph : vd.photo_file_id = some fid) :
    (update_venue vid vIn st).2.venues vid =
      some ⟨vIn.name, vIn.address, vIn.capacity, vd.photo_file_id⟩ ∧
    (update_event eid eIn st).2.events eid =
      some ⟨eIn.name, eIn.description, eIn.venue_id, eIn.date,
            eIn.max_attendees, ed.poster_file_id,
            ed.promo_video_file_id⟩ ∧
    (get_venue_photo vid (update_venue vid vIn st).2).1 =
      (get_venue_photo vid st).1 := by
  obtain ⟨wd, hwd⟩ := Option.isSome_iff_exists.mp hevx
  refine ⟨?_, ?_, ?_⟩
  · simp [update_venue, setFn, hvid, hvd, VenueIn.setOn]
  · simp [update_event, setFn, heid, hed, hev, hwd, EventIn.setOn]
  · simp [update_venue, get_venue_photo, setFn, hvid, hvd, hph,
      VenueIn.setOn]
    cases hf : isValidObjectId fid <;> simp [hf] <;>
      cases hb : st.blobs fid <;> simp [hb]

/-- C10 witness: updating the fixture venue that carries a photo and the
fixture event that carries a poster. -/
theorem C10_witness :
    (update_venue vid1 venueIn0 baseState).2.venues vid1 =
      some ⟨venueIn0.name, venueIn0.address, venueIn0.capacity,
            venueDoc1.photo_file_id⟩ ∧
    (update_event eid0 eventIn0 baseState).2.events eid0 =
      some ⟨eventIn0.name, eventIn0.description, eventIn0.venue_id,
            eventIn0.date, eventIn0.max_attendees,
            eventDoc0.poster_file_id, eventDoc0.promo_video_file_id⟩ ∧
    (get_venue_photo vid1 (update_venue vid1 venueIn0 baseState).2).1 =
      (get_venue_photo vid1 baseState).1 :=
  C10_update_preserves_attachment_fields baseState venueIn0 eventIn0
    vid1 eid0 venueDoc1 eventDoc0 fid0 rfl rfl rfl rfl rfl rfl rfl

/-- C1 counterexample: the fixture event's stored document carries
`poster_file_id = some fid0`; updating it with the valid input
`eventIn0` (which supplies no attachment) and reading it back returns a
record that still carries `some fid0` — a field value surviving from
the previous record, so update followed by get is not a full document
replace. -/
theorem C1_counterexample :
    eventIn0.valid = true ∧
    (update_event eid0 eventIn0 baseState).1 =
      .ok ⟨eid0, "Fair", some "a fair", vid0, "2026-03-03", 75,
           some fid0, none⟩ ∧
    (get_event eid0 (update_event eid0 eventIn0 baseState).2).1 =
      .ok ⟨eid0, "Fair", some "a fair", vid0, "2026-03-03", 75,
           some fid0, none⟩ ∧
    some fid0 ≠ (none : Option String) :=
  ⟨rfl, rfl, rfl, fun h => Option.noConfusion h⟩

/-- C1 (amended): update followed by get returns exactly `y`'s validated
fields under `id` for Venue, Attendee and Booking; for an Event the
validated fields are exactly `y`'s, but the attachment fields
`poster_file_id` and `promo_video_file_id` survive unchanged from the
previous stored document (`$set` replaces only the validated input
fields). -/
theorem C1_update_get_replaces_validated_fields
    (st : AppState) (vid eid aid bid : String)
    (v : VenueIn) (e : EventIn) (a : AttendeeIn) (b : BookingIn)
    (vd : VenueDoc) (ed : EventDoc) (ad : AttendeeDoc) (bd : BookingDoc)
    (hv : v.valid = true) (he : e.valid = true) (ha : a.valid = true)
    (hb : b.valid = true)
    (hvid : isValidObjectId vid = true) (hvd : st.venues vid = some vd)
    (heid : isValidObjectId eid = true) (hed : st.events eid = some ed)
    (haid : isValidObjectId aid = true)
    (had : st.attendees aid = some ad)
    (hbid : isValidObjectId bid = true)
    (hbd : st.bookings bid = some bd)
    (hev : isValidObjectId e.venue_id = true)
    (hevx : (st.venues e.venue_id).isSome = true)
    (hbe : isValidObjectId b.event_id = true)
    (hbex : (st.events b.event_id).isSome = true)
    (hba : isValidObjectId b.attendee_id = true)
    (hbax : (st.attendees b.attendee_id).isSome = true) :
    (get_venue vid (update_venue vid v st).2).1 =
      .ok ⟨vid, v.name, v.address, v.capacity⟩ ∧
    (get_attendee aid (update_attendee aid a st).2).1 =
      .ok ⟨aid, a.name, a.email, a.phone⟩ ∧
    (get_booking bid (update_booking bid b st).2).1 =
      .ok ⟨bid, b.event_id, b.attendee_id, b.tickets, b.booking_date⟩ ∧
    (get_event eid (update_event eid e st).2).1 =
      .ok ⟨eid, e.name, e.description, e.venue_id, e.date,
           e.max_attendees, ed.poster_file_id,
           ed.promo_video_file_id⟩ := by
  obtain ⟨wd, hwd⟩ := Option.isSome_iff_exists.mp hevx
  obtain ⟨xd, hxd⟩ := Option.isSome_iff_exists.mp hbex
  obtain ⟨yd, hyd⟩ := Option.isSome_iff_exists.mp hbax
  refine ⟨?_, ?_, ?_, ?_⟩
  · simp [update_venue, get_venue, setFn, hvid, hvd, VenueIn.setOn,
      venue_out]
  · simp [update_attendee, get_attendee, setFn, haid, had,
      AttendeeIn.setOn, attendee_out]
  · simp [update_booking, get_booking, setFn, hbid, hbd, hbe, hba,
      hxd, hyd, BookingIn.setOn, booking_out]
  · simp [update_event, get_event, setFn, heid, hed, hev, hwd,
      EventIn.setOn, event_out]

/-- C1 witness: update each fixture document with the fixture inputs and
read each back; the event keeps its stored poster id. -/
theorem C1_witness :
    (get_venue vid0 (update_venue vid0 venueIn0 baseState).2).1 =
      .ok ⟨vid0, venueIn0.name, venueIn0.address, venueIn0.capacity⟩ ∧
    (get_attendee aid0 (update_attendee aid0 attendeeIn0 baseState).2).1 =
      .ok ⟨aid0, attendeeIn0.name, attendeeIn0.email,
           attendeeIn0.phone⟩ ∧
    (get_booking bid0 (update_booking bid0 bookingIn0 baseState).2).1 =
      .ok ⟨bid0, bookingIn0.event_id, bookingIn0.attendee_id,
           bookingIn0.tickets, bookingIn0.booking_date⟩ ∧
    (get_event eid0 (update_event eid0 eventIn0 baseState).2).1 =
      .ok ⟨eid0, eventIn0.name, eventIn0.description, eventIn0.venue_id,
           eventIn0.date, eventIn0.max_attendees,
           eventDoc0.poster_file_id, eventDoc0.promo_video_file_id⟩ :=
  C1_update_get_replaces_validated_fields baseState vid0 eid0 aid0 bid0
    venueIn0 eventIn0 attendeeIn0 bookingIn0 venueDoc0 eventDoc0
    attendeeDoc0 bookingDoc0 rfl rfl rfl rfl rfl rfl rfl rfl rfl rfl
    rfl rfl rfl rfl rfl rfl rfl rfl

/-- C2 counterexample: `vid0` is well-formed and matches no venue in the
empty store, yet the photo upload returns the success body with the new
blob id, and the blob sits in the object store — the call does NOT fail
at the metadata-update step. -/
theorem C2_counterexample :
    emptyState.venues vid0 = none ∧
    (upload_venue_photo vid0 file0 emptyState).1 =
      .ok ⟨"Venue photo uploaded", idOfNat 0⟩ ∧
    ((upload_venue_photo vid0 file0 emptyState).2.blobs
      (idOfNat 0)).isSome = true :=
  ⟨rfl, rfl, rfl⟩

/-- C2 (amended): for each media attach operation called with a
well-formed owner id matching no owner document, the blob is stored in
the object store (orphaned: every owner collection is left unchanged),
the metadata `$set` matches no document, and the call nevertheless
returns success carrying the new blob id. -/
theorem C2_upload_missing_owner_orphans_blob_and_succeeds
    (st : AppState) (oid : String) (f : UploadFile)
    (h : isValidObjectId oid = true)
    (hv : st.venues oid = none) (he : st.events oid = none) :
    ((upload_venue_photo oid f st).1 =
       .ok ⟨"Venue photo uploaded", idOfNat st.nextFid⟩ ∧
     (upload_venue_photo oid f st).2.blobs (idOfNat st.nextFid) =
       some ⟨f.content, f.filename, f.content_type,
             [("type", "venue_photo"), ("venue_id", oid)]⟩ ∧
     (upload_venue_photo oid f st).2.venues = st.venues) ∧
    ((upload_event_poster oid f st).1 =
       .ok ⟨"Event poster uploaded", idOfNat st.nextFid⟩ ∧
     (upload_event_poster oid f st).2.blobs (idOfNat st.nextFid) =
       some ⟨f.content, f.filename, f.content_type,
             [("type", "event_poster"), ("event_id", oid)]⟩ ∧
     (upload_event_poster oid f st).2.events = st.events) ∧
    ((upload_event_video oid f st).1 =
       .ok ⟨"Promo video uploaded", idOfNat st.nextFid⟩ ∧
     (upload_event_video oid f st).2.blobs (idOfNat st.nextFid) =
       some ⟨f.content, f.filename, f.content_type,
             [("type", "promo_video"), ("event_id", oid)]⟩ ∧
     (upload_event_video oid f st).2.events = st.events) := by
  refine ⟨⟨?_, ?_, ?_⟩, ⟨?_, ?_, ?_⟩, ⟨?_, ?_, ?_⟩⟩ <;>
    simp [upload_venue_photo, upload_event_poster, upload_event_video,
      fsPut, setFn, h, hv, he]

/-- C2 witness: uploading all three media kinds for owners that do not
exist in the empty store. -/
theorem C2_witness :
    ((upload_venue_photo vid1 file0 emptyState).1 =
       .ok ⟨"Venue photo uploaded", idOfNat 0⟩ ∧
     (upload_venue_photo vid1 file0 emptyState).2.blobs (idOfNat 0) =
       some ⟨file0.content, file0.filename, file0.content_type,
             [("type", "venue_photo"), ("venue_id", vid1)]⟩ ∧
     (upload_venue_photo vid1 file0 emptyState).2.venues =
       emptyState.venues) ∧
    ((upload_event_poster vid1 file0 emptyState).1 =
       .ok ⟨"Event poster uploaded", idOfNat 0⟩ ∧
     (upload_event_poster vid1 file0 emptyState).2.blobs (idOfNat 0) =
       some ⟨file0.content, file0.filename, file0.content_type,
             [("type", "event_poster"), ("event_id", vid1)]⟩ ∧
     (upload_event_poster vid1 file0 emptyState).2.events =
       emptyState.events) ∧
    ((upload_event_video vid1 file0 emptyState).1 =
       .ok ⟨"Promo video uploaded", idOfNat 0⟩ ∧
     (upload_event_video vid1 file0 emptyState).2.blobs (idOfNat 0) =
       some ⟨file0.content, file0.filename, file0.content_type,
             [("type", "promo_video"), ("event_id", vid1)]⟩ ∧
     (upload_event_video vid1 file0 emptyState).2.events =
       emptyState.events) :=
  C2_upload_missing_owner_orphans_blob_and_succeeds emptyState vid1
    file0 rfl rfl rfl

/-- C6 counterexample: uploading a photo whose content type is the empty
string (present, not absent) and fetching it back yields
`application/octet-stream`, not the uploaded content type — Python's
`or` also replaces the falsy empty string. -/
theorem C6_counterexample :
    fileEmptyCt.content_type = some "" ∧
    (get_venue_photo vid0
      (upload_venue_photo vid0 fileEmptyCt baseState).2).1 =
      .ok ⟨[9, 9], "application/octet-stream", some "x.bin"⟩ ∧
    ("application/octet-stream" : String) ≠ "" :=
  ⟨rfl, rfl, fun h => by simp at h⟩

/-- C6 (amended): for every existing venue, uploading a photo with bytes
`b` and content type `c` and then fetching `/venues/{id}/photo` returns
exactly the bytes `b`, the content type `c` except that an absent or
empty `c` becomes `application/octet-stream`, and the uploaded
filename. -/
theorem C6_photo_upload_then_fetch_roundtrip
    (st : AppState) (vid : String) (vd : VenueDoc) (f : UploadFile)
    (hvid : isValidObjectId vid = true)
    (hvd : st.venues vid = some vd) :
    (get_venue_photo vid (upload_venue_photo vid f st).2).1 =
      .ok ⟨f.content, orOctetStream f.content_type, f.filename⟩ := by
  simp [upload_venue_photo, get_venue_photo, fsPut, setFn, hvid, hvd,
    idOfNat_valid]

/-- C6 witness: uploading the fixture jpeg to the fixture venue and
fetching it back returns its bytes and `image/jpeg`. -/
theorem C6_witness :
    (get_venue_photo vid0
      (upload_venue_photo vid0 file0 baseState).2).1 =
      .ok ⟨file0.content, orOctetStream file0.content_type,
           file0.filename⟩ :=
  C6_photo_upload_then_fetch_roundtrip baseState vid0 venueDoc0 file0
    rfl rfl
